import Mathlib

/-!
Verification of the two scripts of the Clueless repository:
`check_items.py` (the Checker) and `query_outfit_items.py` (the Fetcher).

Both scripts POST a fixed GraphQL query to `http://localhost:3000/graphql`
and print results.  We embed them as trace-producing functions over an
abstract server oracle `server : Request → HttpResult`: issuing a POST and
printing a line are recorded as events, and an unhandled Python exception
is recorded as a terminating fault (the process then exits with a non-zero
status and produces no further events).
-/

/-- JSON values, as produced by Python's `res.json()`.  An `obj` models a
parsed Python `dict` (its keys are distinct after JSON parsing), `num`
covers the integer literals that occur in these scripts' traffic. -/
inductive Json where
  | null
  | bool (b : Bool)
  | num (n : Int)
  | str (s : String)
  | arr (elems : List Json)
  | obj (fields : List (String × Json))

/-- Python exceptions that the two scripts can let propagate. -/
inductive PyError where
  /-- `requests.post` raised (connection refused, timeout, ...). -/
  | connectionError
  /-- `res.json()` raised because the body is not valid JSON. -/
  | jsonDecodeError
  /-- `.get` was called on a value that is not a dict. -/
  | attributeError
  /-- `len()` was applied to a value with no length (None, int, bool). -/
  | typeError
  deriving DecidableEq

/-- Python `x.get(key, default)`: on a dict, the stored value (or `default`
when the key is absent); on any non-dict value it raises AttributeError. -/
def dictGet (j : Json) (key : String) (default : Json) : Except PyError Json :=
  match j with
  | .obj fields => .ok (((fields.find? (fun p => p.1 == key)).map (fun p => p.2)).getD default)
  | _ => .error .attributeError

/-- Python `len(x)`: length of a list or string, number of keys of a dict;
on `None`, numbers and booleans it raises TypeError. -/
def pyLen (j : Json) : Except PyError Nat :=
  match j with
  | .arr elems => .ok elems.length
  | .str s => .ok s.length
  | .obj fields => .ok fields.length
  | _ => .error .typeError

/-- Line 9 of `check_items.py`:
`len(data.get('data', {}).get('outfitItemsByOutfit', []))`.
Each intermediate exception propagates unhandled. -/
def countOf (data : Json) : Except PyError Nat :=
  match dictGet data "data" (.obj []) with
  | .error e => .error e
  | .ok d =>
    match dictGet d "outfitItemsByOutfit" (.arr []) with
    | .error e => .error e
    | .ok items => pyLen items

/-- An HTTP request as issued by `requests.post(url, json=payload)`:
the URL and the JSON payload that is serialized into the body. -/
structure Request where
  url : String
  body : Json

/-- A received HTTP response: `res.status_code`, `res.text`, and the result
of `res.json()` (`none` models the JSONDecodeError raised when `text` is
not valid JSON). -/
structure HttpResponse where
  status : Nat
  text : String
  json : Option Json

/-- Outcome of one `requests.post` call.  `requests` raises on transport
failure but never on an HTTP error status: `success` carries ANY status
code, 200 or not. -/
inductive HttpResult where
  | connError
  | success (res : HttpResponse)

/-- Observable events of a run: issuing a POST and printing one line. -/
inductive Event where
  | post (req : Request)
  | print (line : String)

/-- Endpoint shared by both scripts. -/
def graphqlUrl : String := "http://localhost:3000/graphql"

/-- Query string of `check_items.py` (line 4). -/
def checkerQuery : String :=
  "query OutfitItemsByOutfit($outfitId: Int!) \x7b outfitItemsByOutfit(outfitId: $outfitId) \x7b outfit_item_id \x7d \x7d"

/-- Query string of `query_outfit_items.py` (line 3). -/
def fetcherQuery : String :=
  "query OutfitItemsByOutfit($outfitId: Int!) \x7b outfitItemsByOutfit(outfitId: $outfitId) \x7b outfit_item_id outfit_id item_id x_position y_position z_index transform item \x7b item_id name image_url \x7d \x7d \x7d"

/-- Payload built by both scripts:
`{"query": <query>, "variables": {"outfitId": <outfitId>}}`. -/
def mkPayload (query : String) (outfitId : Int) : Json :=
  .obj [("query", .str query), ("variables", .obj [("outfitId", .num outfitId)])]

/-- The request `check_items.py` issues for one outfit id (line 7). -/
def checkerReq (outfitId : Int) : Request :=
  { url := graphqlUrl, body := mkPayload checkerQuery outfitId }

/-- The single request issued by `query_outfit_items.py` (line 6). -/
def fetcherReq : Request :=
  { url := graphqlUrl, body := mkPayload fetcherQuery 3 }

/-- Python `print(outfitId, length)`: arguments joined by one space. -/
def intLine (i : Int) (n : Nat) : String :=
  toString i ++ " " ++ toString n

/-- One iteration of the Checker's loop (lines 3-10 of `check_items.py`):
build the payload, POST it, parse the response with `res.json()`, compute
the count, print `<outfitId> <length>`.  Returns the events of this
iteration and the fault, if any, that aborts the script here. -/
def checkOne (server : Request → HttpResult) (outfitId : Int) :
    List Event × Option PyError :=
  let req := checkerReq outfitId
  match server req with
  | .connError => ([.post req], some .connectionError)
  | .success res =>
    match res.json with
    | none => ([.post req], some .jsonDecodeError)
    | some data =>
      match countOf data with
      | .error e => ([.post req], some e)
      | .ok length => ([.post req, .print (intLine outfitId length)], none)

/-- The Checker's loop over a list of ids, strictly sequential: the
iteration for the next id starts only after the previous one finished,
and a fault stops the whole run at once. -/
def runIds (server : Request → HttpResult) : List Int → List Event × Option PyError
  | [] => ([], none)
  | i :: rest =>
    let step := checkOne server i
    match step.2 with
    | some e => (step.1, some e)
    | none =>
      let tail := runIds server rest
      (step.1 ++ tail.1, tail.2)

/-- Python `range(1, 10)`: the ids 1,2,...,9 in ascending order. -/
def checkerIds : List Int := (List.range' 1 9).map (fun n => Int.ofNat n)

/-- Whole-run semantics of `check_items.py`. -/
def check_items (server : Request → HttpResult) : List Event × Option PyError :=
  runIds server checkerIds

/-- Whole-run semantics of `query_outfit_items.py` (lines 2-8): one POST
with outfitId 3, then print `res.status_code` and `res.text`; the body is
never parsed and the status never inspected. -/
def query_outfit_items (server : Request → HttpResult) : List Event × Option PyError :=
  match server fetcherReq with
  | .connError => ([.post fetcherReq], some .connectionError)
  | .success res =>
    ([.post fetcherReq, .print (toString res.status), .print res.text], none)

/-- Process exit status: 0 on normal completion, non-zero (Python uses 1)
when an unhandled exception aborts the script. -/
def exitCode : Option PyError → Nat
  | none => 0
  | some _ => 1

/-- Expected trace of a fault-free run over id/count pairs: for each pair,
the POST for that id immediately followed by its printed line. -/
def cleanTrace : List (Int × Nat) → List Event
  | [] => []
  | (i, n) :: rest => .post (checkerReq i) :: .print (intLine i n) :: cleanTrace rest

/-- Requests POSTed during a run, in order. -/
def postsOf : List Event → List Request
  | [] => []
  | .post r :: rest => r :: postsOf rest
  | .print _ :: rest => postsOf rest

lemma checkerIds_eq : checkerIds = [1, 2, 3, 4, 5, 6, 7, 8, 9] := rfl

lemma checkOne_conn (server : Request → HttpResult) (i : Int)
    (hs : server (checkerReq i) = .connError) :
    checkOne server i = ([.post (checkerReq i)], some .connectionError) := by
  simp [checkOne, hs]

lemma checkOne_badJson (server : Request → HttpResult) (i : Int) (res : HttpResponse)
    (hs : server (checkerReq i) = .success res) (hj : res.json = none) :
    checkOne server i = ([.post (checkerReq i)], some .jsonDecodeError) := by
  simp [checkOne, hs, hj]

lemma checkOne_countError (server : Request → HttpResult) (i : Int) (res : HttpResponse)
    (data : Json) (e : PyError)
    (hs : server (checkerReq i) = .success res) (hj : res.json = some data)
    (hc : countOf data = .error e) :
    checkOne server i = ([.post (checkerReq i)], some e) := by
  simp [checkOne, hs, hj, hc]

lemma checkOne_success (server : Request → HttpResult) (i : Int) (res : HttpResponse)
    (data : Json) (n : Nat)
    (hs : server (checkerReq i) = .success res) (hj : res.json = some data)
    (hc : countOf data = .ok n) :
    checkOne server i = ([.post (checkerReq i), .print (intLine i n)], none) := by
  simp [checkOne, hs, hj, hc]

lemma checkOne_shape (server : Request → HttpResult) (i : Int) :
    (∃ n, checkOne server i = ([.post (checkerReq i), .print (intLine i n)], none)) ∨
    (∃ e, checkOne server i = ([.post (checkerReq i)], some e)) := by
  cases hs : server (checkerReq i) with
  | connError => exact Or.inr ⟨_, checkOne_conn server i hs⟩
  | success res =>
    cases hj : res.json with
    | none => exact Or.inr ⟨_, checkOne_badJson server i res hs hj⟩
    | some data =>
      cases hc : countOf data with
      | error e => exact Or.inr ⟨e, checkOne_countError server i res data e hs hj hc⟩
      | ok n => exact Or.inl ⟨n, checkOne_success server i res data n hs hj hc⟩

lemma runIds_cons_fault (server : Request → HttpResult) (i : Int) (rest : List Int)
    (evs : List Event) (e : PyError) (hstep : checkOne server i = (evs, some e)) :
    runIds server (i :: rest) = (evs, some e) := by
  simp [runIds, hstep]

lemma runIds_cons_ok (server : Request → HttpResult) (i : Int) (rest : List Int)
    (evs : List Event) (hstep : checkOne server i = (evs, none)) :
    runIds server (i :: rest) =
      (evs ++ (runIds server rest).1, (runIds server rest).2) := by
  simp [runIds, hstep]

lemma runIds_none (server : Request → HttpResult) :
    ∀ ids : List Int, (runIds server ids).2 = none →
      ∀ i ∈ ids, (checkOne server i).2 = none := by
  intro ids
  induction ids with
  | nil => intro _ i hi; cases hi
  | cons j rest ih =>
    intro h i hi
    rcases checkOne_shape server j with ⟨n, hj⟩ | ⟨e, hj⟩
    · rw [runIds_cons_ok server j rest _ hj] at h
      rcases List.mem_cons.mp hi with rfl | hi'
      · rw [hj]
      · exact ih h i hi'
    · rw [runIds_cons_fault server j rest _ e hj] at h
      cases h

lemma runIds_clean (server : Request → HttpResult) :
    ∀ ids : List Int, (∀ i ∈ ids, (checkOne server i).2 = none) →
      ∃ counts : List Nat, counts.length = ids.length ∧
        runIds server ids = (cleanTrace (ids.zip counts), none) := by
  intro ids
  induction ids with
  | nil => intro _; exact ⟨[], rfl, rfl⟩
  | cons j rest ih =>
    intro h
    rcases checkOne_shape server j with ⟨n, hj⟩ | ⟨e, hj⟩
    · obtain ⟨counts, hlen, heq⟩ := ih (fun i hi => h i (List.mem_cons_of_mem j hi))
      refine ⟨n :: counts, by simp [hlen], ?_⟩
      rw [runIds_cons_ok server j rest _ hj, heq]
      simp [cleanTrace, List.zip]
    · have := h j (List.mem_cons_self j rest)
      rw [hj] at this
      cases this

lemma runIds_fault (server : Request → HttpResult) (k : Int) (e : PyError)
    (evk : List Event) :
    ∀ (pre suf : List Int), (∀ i ∈ pre, (checkOne server i).2 = none) →
      checkOne server k = (evk, some e) →
      ∃ counts : List Nat, counts.length = pre.length ∧
        runIds server (pre ++ k :: suf) = (cleanTrace (pre.zip counts) ++ evk, some e) := by
  intro pre
  induction pre with
  | nil =>
    intro suf _ hk
    exact ⟨[], rfl, by rw [List.nil_append, runIds_cons_fault server k suf evk e hk]; rfl⟩
  | cons j rest ih =>
    intro suf h hk
    rcases checkOne_shape server j with ⟨n, hj⟩ | ⟨e', hj⟩
    · obtain ⟨counts, hlen, heq⟩ := ih suf (fun i hi => h i (List.mem_cons_of_mem j hi)) hk
      refine ⟨n :: counts, by simp [hlen], ?_⟩
      rw [List.cons_append, runIds_cons_ok server j _ _ hj, heq]
      simp [cleanTrace, List.zip]
    · have := h j (List.mem_cons_self j rest)
      rw [hj] at this
      cases this

lemma postsOf_cleanTrace : ∀ pairs : List (Int × Nat),
    postsOf (cleanTrace pairs) = pairs.map (fun p => checkerReq p.1) := by
  intro pairs
  induction pairs with
  | nil => rfl
  | cons p rest ih => cases p; simp [cleanTrace, postsOf, ih]

lemma check_items_def (server : Request → HttpResult) :
    check_items server = runIds server checkerIds := rfl

/-- Response body `{"data":{"outfitItemsByOutfit":[]}}` as a JSON value. -/
def emptyItemsJson : Json := .obj [("data", .obj [("outfitItemsByOutfit", .arr [])])]

/-- Server answering every request with HTTP 200 and an empty item list. -/
def goodServer : Request → HttpResult := fun _ =>
  .success { status := 200,
             text := "\x7b\"data\":\x7b\"outfitItemsByOutfit\":[]\x7d\x7d",
             json := some emptyItemsJson }

/-- Server answering every request with HTTP 500 and the valid JSON body
`{"data":{}}`. -/
def server500 : Request → HttpResult := fun _ =>
  .success { status := 500,
             text := "\x7b\"data\":\x7b\x7d\x7d",
             json := some (.obj [("data", .obj [])]) }

/-- Unreachable server: every `requests.post` raises a connection error. -/
def downServer : Request → HttpResult := fun _ => .connError

/-- Scenario A response body:
`{"data":{"outfitItemsByOutfit":[{"outfit_item_id":1},{"outfit_item_id":2}]}}`. -/
def scenarioAJson : Json :=
  .obj [("data", .obj [("outfitItemsByOutfit",
    .arr [.obj [("outfit_item_id", .num 1)], .obj [("outfit_item_id", .num 2)]])])]

/-- Server for Scenario A. -/
def serverA : Request → HttpResult := fun _ =>
  .success { status := 200,
             text := "\x7b\"data\":\x7b\"outfitItemsByOutfit\":[\x7b\"outfit_item_id\":1\x7d,\x7b\"outfit_item_id\":2\x7d]\x7d\x7d",
             json := some scenarioAJson }

/-- Server for Scenario B: body `{"data":{}}` with HTTP 200. -/
def serverB : Request → HttpResult := fun _ =>
  .success { status := 200,
             text := "\x7b\"data\":\x7b\x7d\x7d",
             json := some (.obj [("data", .obj [])]) }

/-- C1: for every outfitId in 1..9 inclusive, the Checker issues exactly one
POST whose `variables.outfitId` equals that outfitId and prints exactly one
line for it, processing the nine ids in ascending order 1,…,9: a fault-free
run's trace is exactly `POST 1, line 1, POST 2, line 2, …, POST 9, line 9`,
and the POSTed requests, in order, are those of ids 1..9. -/
theorem checker_one_post_one_line_per_id (server : Request → HttpResult)
    (h : (check_items server).2 = none) :
    checkerIds = [1, 2, 3, 4, 5, 6, 7, 8, 9] ∧
    ∃ counts : List Nat, counts.length = 9 ∧
      check_items server = (cleanTrace (checkerIds.zip counts), none) ∧
      postsOf (check_items server).1 = checkerIds.map checkerReq := by
  obtain ⟨counts, hlen, heq⟩ :=
    runIds_clean server checkerIds (runIds_none server checkerIds h)
  have heq' : check_items server = (cleanTrace (checkerIds.zip counts), none) := by
    rw [check_items_def, heq]
  have h1 : (check_items server).1 = cleanTrace (checkerIds.zip counts) := by
    rw [heq']
  refine ⟨rfl, counts, by rw [hlen]; rfl, heq', ?_⟩
  have h2 : (checkerIds.zip counts).map Prod.fst = checkerIds :=
    List.map_fst_zip checkerIds counts (le_of_eq hlen.symm)
  rw [h1, postsOf_cleanTrace]
  conv_rhs => rw [← h2, List.map_map]
  rfl

/-- Witness for C1 at a server that always answers 200 with an empty list. -/
theorem checker_one_post_one_line_per_id_witness :
    checkerIds = [1, 2, 3, 4, 5, 6, 7, 8, 9] ∧
    ∃ counts : List Nat, counts.length = 9 ∧
      check_items goodServer = (cleanTrace (checkerIds.zip counts), none) ∧
      postsOf (check_items goodServer).1 = checkerIds.map checkerReq :=
  checker_one_post_one_line_per_id goodServer rfl

lemma countOf_ok (data d items : Json) (n : Nat)
    (hd : dictGet data "data" (.obj []) = .ok d)
    (hi : dictGet d "outfitItemsByOutfit" (.arr []) = .ok items)
    (hn : pyLen items = .ok n) :
    countOf data = .ok n := by
  simp [countOf, hd, hi, hn]

/-- C2: the count printed for an id equals the length of the list found at
`data.outfitItemsByOutfit` in the parsed response, and is 0 whenever the
path is absent (no `data` key at top level, or no `outfitItemsByOutfit` key
inside `data`); in particular Scenario B (`{"data":{}}` for outfitId 5)
prints `5 0` and Scenario A (a two-element list for outfitId 3) prints
`3 2`. -/
theorem checker_printed_count_matches_path (server : Request → HttpResult) (i : Int)
    (res : HttpResponse) (data : Json)
    (hs : server (checkerReq i) = .success res) (hj : res.json = some data) :
    (∀ d xs, dictGet data "data" (.obj []) = .ok d →
        dictGet d "outfitItemsByOutfit" (.arr []) = .ok (.arr xs) →
        checkOne server i =
          ([.post (checkerReq i), .print (intLine i xs.length)], none)) ∧
    (∀ fields, data = .obj fields →
        (fields.find? (fun p => p.1 == "data")) = none →
        checkOne server i = ([.post (checkerReq i), .print (intLine i 0)], none)) ∧
    (∀ dfields, dictGet data "data" (.obj []) = .ok (.obj dfields) →
        (dfields.find? (fun p => p.1 == "outfitItemsByOutfit")) = none →
        checkOne server i = ([.post (checkerReq i), .print (intLine i 0)], none)) ∧
    (data = .obj [("data", .obj [])] → i = 5 →
        checkOne server i = ([.post (checkerReq 5), .print "5 0"], none)) ∧
    (data = scenarioAJson → i = 3 →
        checkOne server i = ([.post (checkerReq 3), .print "3 2"], none)) := by
  refine ⟨?_, ?_, ?_, ?_, ?_⟩
  · intro d xs hd hx
    exact checkOne_success server i res data xs.length hs hj
      (countOf_ok data d (.arr xs) xs.length hd hx rfl)
  · intro fields hf hfind
    subst hf
    have hd : dictGet (Json.obj fields) "data" (.obj []) = .ok (.obj []) := by
      simp [dictGet, hfind]
    exact checkOne_success server i res _ 0 hs hj
      (countOf_ok _ (.obj []) (.arr []) 0 hd rfl rfl)
  · intro dfields hd hfind
    have hx : dictGet (Json.obj dfields) "outfitItemsByOutfit" (.arr []) = .ok (.arr []) := by
      simp [dictGet, hfind]
    exact checkOne_success server i res data 0 hs hj
      (countOf_ok data (.obj dfields) (.arr []) 0 hd hx rfl)
  · intro hdata hi
    subst hdata; subst hi
    exact checkOne_success server 5 res _ 0 hs hj rfl
  · intro hdata hi
    subst hdata; subst hi
    exact checkOne_success server 3 res scenarioAJson 2 hs hj rfl

/-- Witness for C2: Scenarios A and B at concrete servers. -/
theorem checker_printed_count_matches_path_witness :
    checkOne serverA 3 = ([.post (checkerReq 3), .print "3 2"], none) ∧
    checkOne serverB 5 = ([.post (checkerReq 5), .print "5 0"], none) := by
  constructor
  · exact (checker_printed_count_matches_path serverA 3 _ scenarioAJson
      rfl rfl).2.2.2.2 rfl rfl
  · exact (checker_printed_count_matches_path serverB 5 _ (.obj [("data", .obj [])])
      rfl rfl).2.2.2.1 rfl rfl

/-- C3: the Fetcher issues exactly one POST, with `variables.outfitId`
equal to 3, then prints exactly two things: the numeric status code on one
line and the raw response body text unchanged on the next. -/
theorem fetcher_single_post_then_status_and_raw_body (server : Request → HttpResult)
    (res : HttpResponse) (hs : server fetcherReq = .success res) :
    query_outfit_items server =
      ([.post fetcherReq, .print (toString res.status), .print res.text], none) ∧
    postsOf (query_outfit_items server).1 = [fetcherReq] ∧
    fetcherReq.body =
      .obj [("query", .str fetcherQuery), ("variables", .obj [("outfitId", .num 3)])] := by
  have h : query_outfit_items server =
      ([.post fetcherReq, .print (toString res.status), .print res.text], none) := by
    simp [query_outfit_items, hs]
  refine ⟨h, ?_, rfl⟩
  rw [h]
  rfl

/-- Witness for C3 at the all-200 server. -/
theorem fetcher_single_post_then_status_and_raw_body_witness :
    query_outfit_items goodServer =
      ([.post fetcherReq, .print "200",
        .print "\x7b\"data\":\x7b\"outfitItemsByOutfit\":[]\x7d\x7d"], none) ∧
    postsOf (query_outfit_items goodServer).1 = [fetcherReq] ∧
    fetcherReq.body =
      .obj [("query", .str fetcherQuery), ("variables", .obj [("outfitId", .num 3)])] :=
  fetcher_single_post_then_status_and_raw_body goodServer
    { status := 200,
      text := "\x7b\"data\":\x7b\"outfitItemsByOutfit\":[]\x7d\x7d",
      json := some emptyItemsJson } rfl

/-- C4 counterexample: a server that replies to every request with HTTP 500
and the valid JSON body `{"data":{}}`.  `requests.post` does not raise on a
non-200 status and `check_items.py` never reads `status_code`, so the run
does NOT terminate: it still prints the line `1 0` for id 1 and completes
all nine ids without fault, exit status 0 — refuting the claim that a
non-200 status propagates as an unhandled fault and suppresses the line. -/
theorem non200_status_not_a_fault_counterexample :
    server500 (checkerReq 1) =
      .success { status := 500, text := "\x7b\"data\":\x7b\x7d\x7d",
                 json := some (.obj [("data", .obj [])]) } ∧
    (500 : Nat) ≠ 200 ∧
    Event.print (intLine 1 0) ∈ (check_items server500).1 ∧
    (check_items server500).2 = none ∧
    exitCode (check_items server500).2 = 0 := by
  refine ⟨rfl, by decide, ?_, rfl, rfl⟩
  have h : ∃ rest, (check_items server500).1 =
      Event.post (checkerReq 1) :: Event.print (intLine 1 0) :: rest := ⟨_, rfl⟩
  obtain ⟨rest, h⟩ := h
  rw [h]
  exact List.mem_cons_of_mem _ (List.mem_cons_self _ _)

/-- C4 (amended): for the Checker, a connection failure or a non-JSON
response body propagates as an unhandled fault that terminates the script
immediately with a non-zero exit status and no output line for that id; a
non-200 HTTP status by itself is NOT a fault — the status code is never
inspected, and whenever the body parses as JSON and the count computation
succeeds the line is printed regardless of status, with normal exit. -/
theorem checker_faults_only_on_conn_or_nonjson (server : Request → HttpResult) (i : Int) :
    (server (checkerReq i) = .connError →
      checkOne server i = ([.post (checkerReq i)], some .connectionError) ∧
      exitCode (checkOne server i).2 ≠ 0) ∧
    (∀ res, server (checkerReq i) = .success res → res.json = none →
      checkOne server i = ([.post (checkerReq i)], some .jsonDecodeError) ∧
      exitCode (checkOne server i).2 ≠ 0) ∧
    (∀ res data n, server (checkerReq i) = .success res → res.json = some data →
      countOf data = .ok n →
      checkOne server i = ([.post (checkerReq i), .print (intLine i n)], none) ∧
      exitCode (checkOne server i).2 = 0) := by
  refine ⟨fun hs => ?_, fun res hs hj => ?_, fun res data n hs hj hc => ?_⟩
  · have h := checkOne_conn server i hs
    exact ⟨h, by rw [h]; exact one_ne_zero⟩
  · have h := checkOne_badJson server i res hs hj
    exact ⟨h, by rw [h]; exact one_ne_zero⟩
  · have h := checkOne_success server i res data n hs hj hc
    exact ⟨h, by rw [h]; rfl⟩

/-- Witness for amended C4: connection fault at an unreachable server, and
a printed line despite HTTP 500 at `server500`. -/
theorem checker_faults_only_on_conn_or_nonjson_witness :
    (checkOne downServer 1 = ([.post (checkerReq 1)], some .connectionError) ∧
      exitCode (checkOne downServer 1).2 ≠ 0) ∧
    (checkOne server500 1 = ([.post (checkerReq 1), .print (intLine 1 0)], none) ∧
      exitCode (checkOne server500 1).2 = 0) := by
  constructor
  · exact (checker_faults_only_on_conn_or_nonjson downServer 1).1 rfl
  · exact (checker_faults_only_on_conn_or_nonjson server500 1).2.2 _ _ 0 rfl rfl rfl

/-- Server replying HTTP 500 with the non-JSON body `Internal Error`. -/
def serverErr500 : Request → HttpResult := fun _ =>
  .success { status := 500, text := "Internal Error", json := none }

/-- C5: if the server responds to the Fetcher with HTTP 500 and body
`Internal Error`, the Fetcher does not fault: it prints `500` on one line
and `Internal Error` on the next, completing normally (exit status 0). -/
theorem fetcher_prints_500_internal_error (server : Request → HttpResult)
    (j : Option Json)
    (hs : server fetcherReq =
      .success { status := 500, text := "Internal Error", json := j }) :
    query_outfit_items server =
      ([.post fetcherReq, .print "500", .print "Internal Error"], none) ∧
    exitCode (query_outfit_items server).2 = 0 := by
  have h : query_outfit_items server =
      ([.post fetcherReq, .print (toString (500 : Nat)), .print "Internal Error"], none) := by
    simp [query_outfit_items, hs]
  exact ⟨h, by rw [h]; rfl⟩

/-- Witness for C5 at a concrete 500-with-plain-text server. -/
theorem fetcher_prints_500_internal_error_witness :
    query_outfit_items serverErr500 =
      ([.post fetcherReq, .print "500", .print "Internal Error"], none) ∧
    exitCode (query_outfit_items serverErr500).2 = 0 :=
  fetcher_prints_500_internal_error serverErr500 none rfl

lemma mem_checkerIds_decomp (k : Int) (hk : k ∈ checkerIds) :
    checkerIds =
      checkerIds.filter (fun i => i < k) ++ k :: checkerIds.filter (fun i => k < i) := by
  rw [checkerIds_eq] at hk
  fin_cases hk <;> decide

lemma check_items_fault_decomp (server : Request → HttpResult)
    (pre suf : List Int) (k : Int)
    (hdec : checkerIds = pre ++ k :: suf)
    (hpre : ∀ i ∈ pre, (checkOne server i).2 = none)
    (hconn : server (checkerReq k) = .connError) :
    ∃ counts : List Nat, counts.length = pre.length ∧
      check_items server =
        (cleanTrace (pre.zip counts) ++ [.post (checkerReq k)], some .connectionError) := by
  obtain ⟨counts, hlen, heq⟩ :=
    runIds_fault server k .connectionError [.post (checkerReq k)] pre suf hpre
      (checkOne_conn server k hconn)
  exact ⟨counts, hlen, by rw [check_items_def, hdec, heq]⟩

/-- C6: if the POST for some id k raises a connection error while all
earlier ids succeeded, the Checker's trace is exactly the clean prefix for
the ids before k followed by the POST for k — no line is printed for k and
the lines already printed are the only output — and the run aborts with a
non-zero exit status; the Fetcher, when its single POST raises, likewise
produces only that POST event and aborts non-zero. -/
theorem conn_fault_aborts_both_scripts (server : Request → HttpResult) (k : Int)
    (hk : k ∈ checkerIds)
    (hpre : ∀ i ∈ checkerIds, i < k → (checkOne server i).2 = none)
    (hconn : server (checkerReq k) = .connError) :
    (∃ counts : List Nat,
      counts.length = (checkerIds.filter (fun i => i < k)).length ∧
      check_items server =
        (cleanTrace ((checkerIds.filter (fun i => i < k)).zip counts) ++
          [.post (checkerReq k)], some .connectionError)) ∧
    exitCode (check_items server).2 ≠ 0 ∧
    (server fetcherReq = .connError →
      query_outfit_items server = ([.post fetcherReq], some .connectionError) ∧
      exitCode (query_outfit_items server).2 ≠ 0) := by
  have hfetch : server fetcherReq = .connError →
      query_outfit_items server = ([.post fetcherReq], some .connectionError) ∧
      exitCode (query_outfit_items server).2 ≠ 0 := by
    intro hf
    have h : query_outfit_items server = ([.post fetcherReq], some .connectionError) := by
      simp [query_outfit_items, hf]
    exact ⟨h, by rw [h]; exact one_ne_zero⟩
  have hpre' : ∀ i ∈ checkerIds.filter (fun i => i < k), (checkOne server i).2 = none := by
    intro i hi
    exact hpre i (List.mem_of_mem_filter hi) (by simpa using List.of_mem_filter hi)
  obtain ⟨counts, hlen, heq⟩ :=
    check_items_fault_decomp server _ _ k (mem_checkerIds_decomp k hk) hpre' hconn
  exact ⟨⟨counts, hlen, heq⟩, by rw [heq]; exact one_ne_zero, hfetch⟩

/-- Server that is unreachable exactly for requests carrying outfitId 3
(so the Checker's ids 1 and 2 succeed, id 3 raises; the Fetcher's single
request, which also carries outfitId 3, raises as well). -/
def unreachableAt3 : Request → HttpResult := fun req =>
  match req.body with
  | .obj [("query", _), ("variables", .obj [("outfitId", .num i)])] =>
    if i = 3 then .connError
    else .success { status := 200,
                    text := "\x7b\"data\":\x7b\"outfitItemsByOutfit\":[]\x7d\x7d",
                    json := some emptyItemsJson }
  | _ => .success { status := 200,
                    text := "\x7b\"data\":\x7b\"outfitItemsByOutfit\":[]\x7d\x7d",
                    json := some emptyItemsJson }

/-- Witness for C6: the server unreachable at outfitId 3; the Checker
prints lines for ids 1 and 2 then aborts on the POST for id 3, and the
Fetcher aborts on its single POST. -/
theorem conn_fault_aborts_both_scripts_witness :
    (∃ counts : List Nat,
      counts.length = (checkerIds.filter (fun i => i < 3)).length ∧
      check_items unreachableAt3 =
        (cleanTrace ((checkerIds.filter (fun i => i < 3)).zip counts) ++
          [.post (checkerReq 3)], some .connectionError)) ∧
    exitCode (check_items unreachableAt3).2 ≠ 0 ∧
    (query_outfit_items unreachableAt3 = ([.post fetcherReq], some .connectionError) ∧
      exitCode (query_outfit_items unreachableAt3).2 ≠ 0) := by
  have h := conn_fault_aborts_both_scripts unreachableAt3 3 (by decide)
    (by
      intro i hi hlt
      rw [checkerIds_eq] at hi
      fin_cases hi <;> first | rfl | exact absurd hlt (by decide))
    rfl
  exact ⟨h.1, h.2.1, h.2.2 rfl⟩

lemma post_mem_checkOne (server : Request → HttpResult) (i : Int) (req : Request)
    (h : Event.post req ∈ (checkOne server i).1) : req = checkerReq i := by
  rcases checkOne_shape server i with ⟨n, hs⟩ | ⟨e, hs⟩ <;>
    rw [hs] at h <;> simp at h <;> exact h

lemma post_mem_runIds (server : Request → HttpResult) :
    ∀ (ids : List Int) (req : Request), Event.post req ∈ (runIds server ids).1 →
      ∃ i ∈ ids, req = checkerReq i := by
  intro ids
  induction ids with
  | nil =>
    intro req h
    simp [runIds] at h
  | cons j rest ih =>
    intro req h
    rcases checkOne_shape server j with ⟨n, hs⟩ | ⟨e, hs⟩
    · rw [runIds_cons_ok server j rest _ hs] at h
      rcases List.mem_append.mp h with h1 | h2
      · have hreq : req = checkerReq j :=
          post_mem_checkOne server j req (by rw [hs]; exact h1)
        exact ⟨j, List.mem_cons_self j rest, hreq⟩
      · obtain ⟨i, hi, hreq⟩ := ih req h2
        exact ⟨i, List.mem_cons_of_mem j hi, hreq⟩
    · rw [runIds_cons_fault server j rest _ e hs] at h
      have hreq : req = checkerReq j :=
        post_mem_checkOne server j req (by rw [hs]; exact h)
      exact ⟨j, List.mem_cons_self j rest, hreq⟩

/-- C7: against any server, every request either script POSTs goes to
`http://localhost:3000/graphql` and its JSON body has exactly the shape
`{"query": <string>, "variables": {"outfitId": <integer>}}` with the
script's own fixed query string. -/
theorem every_request_is_wellformed_graphql_post (server : Request → HttpResult)
    (req : Request) :
    (Event.post req ∈ (check_items server).1 →
      req.url = graphqlUrl ∧
      ∃ i : Int, req.body =
        .obj [("query", .str checkerQuery), ("variables", .obj [("outfitId", .num i)])]) ∧
    (Event.post req ∈ (query_outfit_items server).1 →
      req.url = graphqlUrl ∧
      req.body =
        .obj [("query", .str fetcherQuery), ("variables", .obj [("outfitId", .num 3)])]) := by
  constructor
  · intro h
    obtain ⟨i, _, hreq⟩ := post_mem_runIds server checkerIds req h
    subst hreq
    exact ⟨rfl, i, rfl⟩
  · intro h
    have hreq : req = fetcherReq := by
      cases hs : server fetcherReq with
      | connError =>
        rw [show query_outfit_items server = ([.post fetcherReq], some .connectionError)
          from by simp [query_outfit_items, hs]] at h
        simpa using h
      | success res =>
        rw [show query_outfit_items server =
            ([.post fetcherReq, .print (toString res.status), .print res.text], none)
          from by simp [query_outfit_items, hs]] at h
        simpa using h
    subst hreq
    exact ⟨rfl, rfl⟩

/-- Witness for C7: the first Checker request and the Fetcher request at
the all-200 server. -/
theorem every_request_is_wellformed_graphql_post_witness :
    ((checkerReq 1).url = graphqlUrl ∧
      ∃ i : Int, (checkerReq 1).body =
        .obj [("query", .str checkerQuery), ("variables", .obj [("outfitId", .num i)])]) ∧
    (fetcherReq.url = graphqlUrl ∧
      fetcherReq.body =
        .obj [("query", .str fetcherQuery), ("variables", .obj [("outfitId", .num 3)])]) := by
  constructor
  · exact (every_request_is_wellformed_graphql_post goodServer (checkerReq 1)).1
      (List.Mem.head _)
  · exact (every_request_is_wellformed_graphql_post goodServer fetcherReq).2
      (List.Mem.head _)

/-- C8: the Checker's requests run strictly sequentially in loop order — in
a fault-free run, for each k in 1..8 the POST for id k+1 occurs in the
trace at the position immediately after the printed line for id k, so the
request for id k+1 is sent only after the response for id k has been
received, parsed and printed (the trace is one linear sequence: no two
requests are in flight at once). -/
theorem checker_requests_strictly_sequential (server : Request → HttpResult)
    (h : (check_items server).2 = none) (k : Int) (h1 : 1 ≤ k) (h8 : k ≤ 8) :
    ∃ (n : Nat) (m : Nat),
      (check_items server).1.get? m = some (.print (intLine k n)) ∧
      (check_items server).1.get? (m + 1) = some (.post (checkerReq (k + 1))) := by
  obtain ⟨counts, hlen, heq⟩ :=
    runIds_clean server checkerIds (runIds_none server checkerIds h)
  have hl9 : counts.length = 9 := by rw [hlen]; rfl
  rcases counts with _ | ⟨c1, _ | ⟨c2, _ | ⟨c3, _ | ⟨c4, _ | ⟨c5, _ | ⟨c6, _ |
    ⟨c7, _ | ⟨c8, _ | ⟨c9, _ | ⟨c10, t⟩⟩⟩⟩⟩⟩⟩⟩⟩⟩ <;> simp at hl9
  have htr : (check_items server).1 =
      cleanTrace (checkerIds.zip [c1, c2, c3, c4, c5, c6, c7, c8, c9]) := by
    rw [check_items_def, heq]
  interval_cases k
  · exact ⟨c1, 1, by simp only [htr]; rfl, by simp only [htr]; rfl⟩
  · exact ⟨c2, 3, by simp only [htr]; rfl, by simp only [htr]; rfl⟩
  · exact ⟨c3, 5, by simp only [htr]; rfl, by simp only [htr]; rfl⟩
  · exact ⟨c4, 7, by simp only [htr]; rfl, by simp only [htr]; rfl⟩
  · exact ⟨c5, 9, by simp only [htr]; rfl, by simp only [htr]; rfl⟩
  · exact ⟨c6, 11, by simp only [htr]; rfl, by simp only [htr]; rfl⟩
  · exact ⟨c7, 13, by simp only [htr]; rfl, by simp only [htr]; rfl⟩
  · exact ⟨c8, 15, by simp only [htr]; rfl, by simp only [htr]; rfl⟩

/-- Witness for C8 at the all-200 server, k = 1. -/
theorem checker_requests_strictly_sequential_witness :
    ∃ (n : Nat) (m : Nat),
      (check_items goodServer).1.get? m = some (.print (intLine 1 n)) ∧
      (check_items goodServer).1.get? (m + 1) = some (.post (checkerReq (1 + 1))) :=
  checker_requests_strictly_sequential goodServer rfl 1 (by decide) (by decide)

/-- Response body `{"data":{"outfitItemsByOutfit":null}}` as a JSON value. -/
def nullItemsJson : Json := .obj [("data", .obj [("outfitItemsByOutfit", .null)])]

/-- Server answering every request with HTTP 200 and a body whose
`data.outfitItemsByOutfit` is JSON null instead of a list. -/
def nullItemsServer : Request → HttpResult := fun _ =>
  .success { status := 200,
             text := "\x7b\"data\":\x7b\"outfitItemsByOutfit\":null\x7d\x7d",
             json := some nullItemsJson }

/-- C9: the Checker's tolerance of a missing path does not extend to a
present-but-null value — if the response JSON maps `data.outfitItemsByOutfit`
to JSON null (a Python value with no length), `len()` raises an unhandled
TypeError: the iteration produces only the POST event, no printed line, and
the run aborts with non-zero exit status. -/
theorem null_items_value_raises_typeerror (server : Request → HttpResult) (i : Int)
    (res : HttpResponse) (data d : Json)
    (hs : server (checkerReq i) = .success res) (hj : res.json = some data)
    (hd : dictGet data "data" (.obj []) = .ok d)
    (hnull : dictGet d "outfitItemsByOutfit" (.arr []) = .ok .null) :
    countOf data = .error .typeError ∧
    checkOne server i = ([.post (checkerReq i)], some .typeError) ∧
    exitCode (checkOne server i).2 ≠ 0 := by
  have hc : countOf data = .error .typeError := by
    simp [countOf, hd, hnull, pyLen]
  have h := checkOne_countError server i res data .typeError hs hj hc
  exact ⟨hc, h, by rw [h]; exact one_ne_zero⟩

/-- Witness for C9 at a concrete null-valued server, id 7. -/
theorem null_items_value_raises_typeerror_witness :
    countOf nullItemsJson = .error .typeError ∧
    checkOne nullItemsServer 7 = ([.post (checkerReq 7)], some .typeError) ∧
    exitCode (checkOne nullItemsServer 7).2 ≠ 0 :=
  null_items_value_raises_typeerror nullItemsServer 7
    { status := 200,
      text := "\x7b\"data\":\x7b\"outfitItemsByOutfit\":null\x7d\x7d",
      json := some nullItemsJson }
    nullItemsJson (.obj [("outfitItemsByOutfit", .null)]) rfl rfl rfl rfl

/-- Server answering with HTTP 404 and a body that is not JSON at all. -/
def weirdServer : Request → HttpResult := fun _ =>
  .success { status := 404, text := "<html>not found</html>", json := none }

/-- C10: once any HTTP response is received, the Fetcher never raises and
always exits successfully — it never inspects the status code or parses the
body, so for every status and every body (JSON or not) it prints its two
lines and terminates with exit status 0. -/
theorem fetcher_succeeds_on_any_response (server : Request → HttpResult)
    (res : HttpResponse) (hs : server fetcherReq = .success res) :
    query_outfit_items server =
      ([.post fetcherReq, .print (toString res.status), .print res.text], none) ∧
    (query_outfit_items server).2 = none ∧
    exitCode (query_outfit_items server).2 = 0 := by
  have h : query_outfit_items server =
      ([.post fetcherReq, .print (toString res.status), .print res.text], none) := by
    simp [query_outfit_items, hs]
  exact ⟨h, by rw [h], by rw [h]; rfl⟩

/-- Witness for C10 at a 404 server with a non-JSON body. -/
theorem fetcher_succeeds_on_any_response_witness :
    query_outfit_items weirdServer =
      ([.post fetcherReq, .print "404", .print "<html>not found</html>"], none) ∧
    (query_outfit_items weirdServer).2 = none ∧
    exitCode (query_outfit_items weirdServer).2 = 0 :=
  fetcher_succeeds_on_any_response weirdServer
    { status := 404, text := "<html>not found</html>", json := none } rfl
